import Mathlib

/-!
# gtsam_ros: measurement records and estimator calibration

A shallow embedding of `src/Measurement.cpp` and `include/gtsam_core.h`.

The C++ code stores and returns `double` values but never computes with them,
so the embedding is parametric in the scalar type `D`; every statement below
holds for any carrier of the scalars.  Eigen column vectors are modelled as the
list of their coefficients, in index order; the comma initialiser `v << a, b, c`
writes its operands to the coefficients 0, 1, 2 in that order.  The member
declarations of the measurement classes are in `Measurement.h`; the members and
their sizes are taken from what the constructors write.
-/

set_option linter.dupNamespace false

namespace GtsamRos

/-! ## Transport messages (the fields the code reads) -/

/-- ROS time stamp `ros::Time`: whole seconds and nanoseconds. -/
structure RosTime where
  sec : Nat
  nsec : Nat
deriving DecidableEq

/-- Message header `std_msgs::Header`; only `stamp` is read. -/
structure Header where
  stamp : RosTime
deriving DecidableEq

/-- Message `geometry_msgs::Vector3`. -/
structure Vector3 (D : Type) where
  x : D
  y : D
  z : D
deriving DecidableEq

/-- Message `geometry_msgs::Point`. -/
structure Point (D : Type) where
  x : D
  y : D
  z : D
deriving DecidableEq

/-- Message `geometry_msgs::Quaternion`. -/
structure Quaternion (D : Type) where
  x : D
  y : D
  z : D
  w : D
deriving DecidableEq

/-- Message `sensor_msgs::Imu`, restricted to the fields read by the constructor. -/
structure Imu (D : Type) where
  header : Header
  orientation : Quaternion D
  angular_velocity : Vector3 D
  linear_acceleration : Vector3 D
deriving DecidableEq

/-- Message `sensor_msgs::NavSatFix`, restricted to the fields read by the constructor. -/
structure NavSatFix (D : Type) where
  header : Header
  latitude : D
  longitude : D
  altitude : D
deriving DecidableEq

/-- Message `geometry_msgs::Pose`. -/
structure Pose (D : Type) where
  position : Point D
  orientation : Quaternion D
deriving DecidableEq

/-- The pose message as `PoseMeasurement::PoseMeasurement` accesses it:
`msg->header.stamp` and `msg->pose.{position,orientation}`. -/
structure PoseWithCovariance (D : Type) where
  header : Header
  pose : Pose D
deriving DecidableEq

/-- Message `gazebo_msgs::LinkStates`; only the `pose` array is read. -/
structure LinkStates (D : Type) where
  pose : List (Pose D)
deriving DecidableEq

/-! ## Measurement records -/

/-- The type tags used in `Measurement.cpp` (the enum itself is declared in
`Measurement.h`). -/
inductive MeasurementType where
  | EMPTY
  | IMU
  | GPS
  | POSE
  | LINK
deriving DecidableEq

/-- Base class `Measurement`: members `t_` and `type_`. -/
structure Measurement (D : Type) where
  t_ : D
  type_ : MeasurementType
deriving DecidableEq

/-- Class `ImuMeasurement : Measurement` with members `data_` and `ori_`. -/
structure ImuMeasurement (D : Type) extends Measurement D where
  data_ : List D
  ori_ : List D
deriving DecidableEq

/-- Class `GpsMeasurement : Measurement` with member `data_`. -/
structure GpsMeasurement (D : Type) extends Measurement D where
  data_ : List D
deriving DecidableEq

/-- Class `PoseMeasurement : Measurement` with members `data_` and `ori_`. -/
structure PoseMeasurement (D : Type) extends Measurement D where
  data_ : List D
  ori_ : List D
deriving DecidableEq

/-- Class `GtLinkMeasurement : Measurement` with members `pos_` and `ori_`. -/
structure GtLinkMeasurement (D : Type) extends Measurement D where
  pos_ : List D
  ori_ : List D
deriving DecidableEq

section Constructors

variable {D : Type}

/-- Source: `Measurement::Measurement()`: `t_ = 0; type_ = EMPTY;`. -/
def Measurement.Measurement [Zero D] : GtsamRos.Measurement D :=
  { t_ := 0, type_ := MeasurementType.EMPTY }

/-- Source: `ImuMeasurement::ImuMeasurement(msg)`.  The library call `stamp.toSec()` is the
parameter `toSec`. -/
def ImuMeasurement.ImuMeasurement (toSec : RosTime → D) (msg : Imu D) :
    GtsamRos.ImuMeasurement D :=
  { t_ := toSec msg.header.stamp
    data_ := [msg.angular_velocity.x, msg.angular_velocity.y, msg.angular_velocity.z,
              msg.linear_acceleration.x, msg.linear_acceleration.y,
              msg.linear_acceleration.z]
    ori_ := [msg.orientation.x, msg.orientation.y, msg.orientation.z, msg.orientation.w]
    type_ := MeasurementType.IMU }

/-- Source: `GpsMeasurement::GpsMeasurement(msg)`. -/
def GpsMeasurement.GpsMeasurement (toSec : RosTime → D) (msg : NavSatFix D) :
    GtsamRos.GpsMeasurement D :=
  { t_ := toSec msg.header.stamp
    data_ := [msg.latitude, msg.longitude, msg.altitude]
    type_ := MeasurementType.GPS }

/-- Source: `PoseMeasurement::PoseMeasurement(msg)`. -/
def PoseMeasurement.PoseMeasurement (toSec : RosTime → D) (msg : PoseWithCovariance D) :
    GtsamRos.PoseMeasurement D :=
  { t_ := toSec msg.header.stamp
    data_ := [msg.pose.position.x, msg.pose.position.y, msg.pose.position.z]
    ori_ := [msg.pose.orientation.x, msg.pose.orientation.y, msg.pose.orientation.z,
             msg.pose.orientation.w]
    type_ := MeasurementType.POSE }

/-- Conversion `int n = v.size()` of a container size to a 32-bit `int`: the size is
reduced modulo `2^32` and the result read as a two's-complement number. -/
def sizeToInt (size : Nat) : Int :=
  if size % 4294967296 < 2147483648 then ((size % 4294967296 : Nat) : Int)
  else ((size % 4294967296 : Nat) : Int) - 4294967296

/-- Element access `v[i]` of a `std::vector` with an `int` index: an element is read
only when `0 ≤ i < v.size()`.  A negative `int` converts to a `size_type` value above
every possible vector size, so it never designates an element; the access is then
undefined and the model yields `none`. -/
def vectorAt {α : Type} (v : List α) (i : Int) : Option α :=
  if 0 ≤ i then v[i.toNat]? else none

/-- Source: `GtLinkMeasurement::GtLinkMeasurement(msg, t)`: reads `msg->pose[n-9]` with
`int n = (msg->pose).size()`.  The result is `none` when that access has no element
to read. -/
def GtLinkMeasurement.GtLinkMeasurement (msg : LinkStates D) (t : D) :
    Option (GtsamRos.GtLinkMeasurement D) :=
  let n : Int := sizeToInt msg.pose.length
  match vectorAt msg.pose (n - 9) with
  | none => none
  | some p =>
    some { t_ := t
           pos_ := [p.position.x, p.position.y, p.position.z]
           ori_ := [p.orientation.x, p.orientation.y, p.orientation.z, p.orientation.w]
           type_ := MeasurementType.LINK }

end Constructors

/-! ## Accessors

The getters are non-const member functions; each is modelled as a step that returns
its result together with the object after the call. -/

section Accessors

variable {D : Type}

/-- Source: `double Measurement::getTime() { return t_; }`. -/
def Measurement.getTime (m : GtsamRos.Measurement D) : D × GtsamRos.Measurement D :=
  (m.t_, m)

/-- Source: `MeasurementType Measurement::getType() { return type_; }`. -/
def Measurement.getType (m : GtsamRos.Measurement D) : MeasurementType × GtsamRos.Measurement D :=
  (m.type_, m)

/-- Source: `Eigen::VectorXd ImuMeasurement::getData() { return data_; }`. -/
def ImuMeasurement.getData (m : GtsamRos.ImuMeasurement D) : List D × GtsamRos.ImuMeasurement D :=
  (m.data_, m)

/-- Source: `Eigen::VectorXd ImuMeasurement::getOri() { return ori_; }`. -/
def ImuMeasurement.getOri (m : GtsamRos.ImuMeasurement D) : List D × GtsamRos.ImuMeasurement D :=
  (m.ori_, m)

/-- Source: `Eigen::VectorXd GpsMeasurement::getData() { return data_; }`. -/
def GpsMeasurement.getData (m : GtsamRos.GpsMeasurement D) : List D × GtsamRos.GpsMeasurement D :=
  (m.data_, m)

/-- Source: `Eigen::VectorXd PoseMeasurement::getData() { return data_; }`. -/
def PoseMeasurement.getData (m : GtsamRos.PoseMeasurement D) : List D × GtsamRos.PoseMeasurement D :=
  (m.data_, m)

/-- Source: `Eigen::VectorXd GtLinkMeasurement::getPos() { return pos_; }`. -/
def GtLinkMeasurement.getPos (m : GtsamRos.GtLinkMeasurement D) : List D × GtsamRos.GtLinkMeasurement D :=
  (m.pos_, m)

/-- Source: `Eigen::VectorXd GtLinkMeasurement::getOri() { return ori_; }`. -/
def GtLinkMeasurement.getOri (m : GtsamRos.GtLinkMeasurement D) : List D × GtsamRos.GtLinkMeasurement D :=
  (m.ori_, m)

/-- Standard library: the state of a `std::ostream` that the inserters read and
write.  `written` is the character sequence the stream buffer has accepted so far,
`good` is `os.good()`, `width` is the pending field width `os.width()`, `fill` is
`os.fill()`, `adjustLeft` says whether the adjust field is `left`, and `room` is the
number of further characters the stream buffer accepts before it refuses one.  The
exception mask is the default, empty one, so setting an error bit does not throw. -/
structure OStream where
  written : String
  good : Bool
  width : Nat
  fill : Char
  adjustLeft : Bool
  room : Nat
deriving DecidableEq

/-- Standard library: the character sequence a formatted inserter generates for the
string `s`: `s` padded with the fill character up to the pending width, after `s` when
the adjust field is `left` and before it otherwise. -/
def OStream.padded (os : OStream) (s : String) : String :=
  let pad : String := String.mk (List.replicate (os.width - s.length) os.fill)
  if os.adjustLeft then s ++ pad else pad ++ s

/-- Standard library: `os << s` for a character string (`const char*` or
`std::string`), a formatted output function.  On a stream that is not good nothing is
written.  Otherwise the padded sequence goes to the stream buffer and the width is
reset to 0; if the buffer refuses a character the stream stops being good. -/
def OStream.insertString (os : OStream) (s : String) : OStream :=
  if os.good then
    if (os.padded s).length ≤ os.room then
      { os with
          written := os.written ++ os.padded s
          room := os.room - (os.padded s).length
          width := 0 }
    else
      { os with
          written := os.written ++ String.mk ((os.padded s).data.take os.room)
          room := 0
          width := 0
          good := false }
  else os

/-- Standard library: `os.put(c)`, an unformatted output function: no padding, and
nothing is written on a stream that is not good. -/
def OStream.put (os : OStream) (c : Char) : OStream :=
  if os.good then
    if 1 ≤ os.room then
      { os with written := os.written ++ String.singleton c, room := os.room - 1 }
    else { os with good := false }
  else os

/-- Standard library: `os << endl`, that is `os.put(newline)` followed by
`os.flush()`; flushing adds no character. -/
def OStream.endl (os : OStream) : OStream :=
  os.put (Char.ofNat 10)

/-- Source: `ostream& operator<<(ostream& os, const Measurement& m)`:
`os << "Measurement type: " << type_str << endl;` after the `switch` on `m.type_`.
The second component is `m` after the call. -/
def operator_lshift (os : OStream) (m : GtsamRos.Measurement D) :
    OStream × GtsamRos.Measurement D :=
  let type_str : String :=
    match m.type_ with
    | MeasurementType.IMU => "IMU"
    | MeasurementType.GPS => "GPS"
    | _ => "Unknown"
  (((os.insertString "Measurement type: ").insertString type_str).endl, m)

end Accessors

/-! ## Any record, any accessor -/

section Records

variable {D : Type}

/-- A measurement record of any of the classes of `Measurement.cpp`. -/
inductive Record (D : Type) where
  | base (m : Measurement D)
  | imu (m : ImuMeasurement D)
  | gps (m : GpsMeasurement D)
  | pose (m : PoseMeasurement D)
  | link (m : GtLinkMeasurement D)
deriving DecidableEq

/-- The accessors defined in `Measurement.cpp`. -/
inductive Accessor where
  | getTime
  | getType
  | getData
  | getOri
  | getPos
deriving DecidableEq

/-- What an accessor returns: a time, a type tag or a vector. -/
inductive Value (D : Type) where
  | time (d : D)
  | tag (t : MeasurementType)
  | vec (v : List D)
deriving DecidableEq

/-- The base-class part of a record. -/
def Record.toMeasurement : Record D → Measurement D
  | Record.base m => m
  | Record.imu m => m.toMeasurement
  | Record.gps m => m.toMeasurement
  | Record.pose m => m.toMeasurement
  | Record.link m => m.toMeasurement

/-- A record with its base-class part replaced. -/
def Record.withMeasurement : Record D → Measurement D → Record D
  | Record.base _, b => Record.base b
  | Record.imu m, b => Record.imu { m with toMeasurement := b }
  | Record.gps m, b => Record.gps { m with toMeasurement := b }
  | Record.pose m, b => Record.pose { m with toMeasurement := b }
  | Record.link m, b => Record.link { m with toMeasurement := b }

/-- One accessor call on a record: the returned value and the record after the call.
`none` when the record's class has no such member function. -/
def Record.call (a : Accessor) (r : Record D) : Option (Value D × Record D) :=
  match a, r with
  | Accessor.getTime, r =>
    let out := r.toMeasurement.getTime
    some (Value.time out.1, r.withMeasurement out.2)
  | Accessor.getType, r =>
    let out := r.toMeasurement.getType
    some (Value.tag out.1, r.withMeasurement out.2)
  | Accessor.getData, Record.imu m =>
    let out := m.getData
    some (Value.vec out.1, Record.imu out.2)
  | Accessor.getData, Record.gps m =>
    let out := m.getData
    some (Value.vec out.1, Record.gps out.2)
  | Accessor.getData, Record.pose m =>
    let out := m.getData
    some (Value.vec out.1, Record.pose out.2)
  | Accessor.getOri, Record.imu m =>
    let out := m.getOri
    some (Value.vec out.1, Record.imu out.2)
  | Accessor.getOri, Record.link m =>
    let out := m.getOri
    some (Value.vec out.1, Record.link out.2)
  | Accessor.getPos, Record.link m =>
    let out := m.getPos
    some (Value.vec out.1, Record.link out.2)
  | _, _ => none

/-- A sequence of accessor calls, left to right: the results of the calls and the
record after the last one.  A call the class does not offer yields `none` and leaves
the record as it is. -/
def Record.run : List Accessor → Record D → List (Option (Value D)) × Record D
  | [], r => ([], r)
  | a :: rest, r =>
    match Record.call a r with
    | none =>
      let tl := Record.run rest r
      (none :: tl.1, tl.2)
    | some out =>
      let tl := Record.run rest out.2
      (some out.1 :: tl.1, tl.2)

/-- The member a given accessor is documented to expose, read directly from the
fields the constructor stored. -/
def Record.stored (a : Accessor) (r : Record D) : Option (Value D) :=
  match a, r with
  | Accessor.getTime, Record.base m => some (Value.time m.t_)
  | Accessor.getTime, Record.imu m => some (Value.time m.t_)
  | Accessor.getTime, Record.gps m => some (Value.time m.t_)
  | Accessor.getTime, Record.pose m => some (Value.time m.t_)
  | Accessor.getTime, Record.link m => some (Value.time m.t_)
  | Accessor.getType, Record.base m => some (Value.tag m.type_)
  | Accessor.getType, Record.imu m => some (Value.tag m.type_)
  | Accessor.getType, Record.gps m => some (Value.tag m.type_)
  | Accessor.getType, Record.pose m => some (Value.tag m.type_)
  | Accessor.getType, Record.link m => some (Value.tag m.type_)
  | Accessor.getData, Record.imu m => some (Value.vec m.data_)
  | Accessor.getData, Record.gps m => some (Value.vec m.data_)
  | Accessor.getData, Record.pose m => some (Value.vec m.data_)
  | Accessor.getOri, Record.imu m => some (Value.vec m.ori_)
  | Accessor.getOri, Record.link m => some (Value.vec m.ori_)
  | Accessor.getPos, Record.link m => some (Value.vec m.pos_)
  | _, _ => none

end Records

/-! ## Calibration (`gtsam_core.h`) -/

section Calibration

variable {D : Type}

/-- GTSAM type `Vector12`: a column vector of twelve coefficients, read as
`calibration(i)`. -/
abbrev Vector12 (D : Type) : Type := Fin 12 → D

/-- Struct `RobotxCalibration`, members in declaration order. -/
structure RobotxCalibration (D : Type) where
  body_ptx : D
  body_pty : D
  body_ptz : D
  body_prx : D
  body_pry : D
  body_prz : D
  accelerometer_sigma : D
  gyroscope_sigma : D
  integration_sigma : D
  accelerometer_bias_sigma : D
  gyroscope_bias_sigma : D
  average_delta_t : D
deriving DecidableEq

/-- Source: `RobotxCalibration::RobotxCalibration(const Vector12& calibration)`: twelve
assignments, no other statement. -/
def RobotxCalibration.RobotxCalibration (calibration : Vector12 D) :
    GtsamRos.RobotxCalibration D :=
  { body_ptx := calibration 0
    body_pty := calibration 1
    body_ptz := calibration 2
    body_prx := calibration 3
    body_pry := calibration 4
    body_prz := calibration 5
    accelerometer_sigma := calibration 6
    gyroscope_sigma := calibration 7
    integration_sigma := calibration 8
    accelerometer_bias_sigma := calibration 9
    gyroscope_bias_sigma := calibration 10
    average_delta_t := calibration 11 }

/-- A calibration vector is malformed when one of the noise sigmas (indices 6 to 10)
or `average_delta_t` (index 11) is not positive. -/
def nonPositiveNoise [LE D] [Zero D] (calibration : Vector12 D) : Prop :=
  ∃ i : Fin 12, 6 ≤ i.val ∧ calibration i ≤ 0

end Calibration

/-! ## Estimator state (`gtsam_core.h`) -/

section Estimator

/-- The GTSAM library types that occur as members of `GTSAM_CORE`. -/
structure GtsamTypes where
  PreintegratedImuMeasurements : Type
  ISAM2Params : Type
  noiseModel : Type
  ConstantBias : Type
  Pose3 : Type
  Matrix : Type
  Vector3 : Type
  ISAM2 : Type
  Values : Type
  NonlinearFactorGraph : Type

/-- Class `GTSAM_CORE`: its private members, in declaration order.
`GPS_update_count` is a `uint64_t`: a natural number below `2^64`;
`included_imu_measurement_count` is a `size_t`; `gps_skip` is an `int`. -/
structure GTSAM_CORE (G : GtsamTypes) (D : Type) where
  current_summarized_measurement : G.PreintegratedImuMeasurements
  t1 : D
  t2 : D
  dt : D
  included_imu_measurement_count : Nat
  g_ : D
  GPS_update_count : Fin 18446744073709551616
  gps_skip : Int
  imu_params : G.ISAM2Params
  noise_model_gps : G.noiseModel
  current_bias : G.ConstantBias
  current_pose_global : G.Pose3
  current_pose_cov : G.Matrix
  current_velocity_global : G.Vector3
  robotx_calibration : RobotxCalibration D
  isam2 : G.ISAM2
  result : G.Values
  new_factors : G.NonlinearFactorGraph
  new_values : G.Values

variable {G : GtsamTypes} {D : Type}

/-- Modelled from the spec: the joint estimate the external incremental solver hands
back for one increment (the solver is an external collaborator of the repository; the
spec gives it the contract "accepts new variables, constraints and initial guesses,
returns an updated joint variable assignment" and a marginal-covariance query). -/
structure SolverUpdate (G : GtsamTypes) where
  isam2 : G.ISAM2
  result : G.Values
  pose : G.Pose3
  pose_cov : G.Matrix
  velocity : G.Vector3
  bias : G.ConstantBias

/-- Modelled from the spec: the external capabilities `addGPS` relies on.
`submitIncrement` stands for building the graph increment from the pending motion
summary, the absolute-position sample and the estimation state and submitting it to
the solver; it is `none` when the solver fails to produce a valid update.
`resetSummary` clears the motion summary and re-parameterises it with a bias. -/
structure ExternalSolver (G : GtsamTypes) (D : Type) where
  submitIncrement : GTSAM_CORE G D → PoseMeasurement D → Option (SolverUpdate G)
  resetSummary : G.PreintegratedImuMeasurements → G.ConstantBias →
    G.PreintegratedImuMeasurements

/-- Modelled from the spec: how one `addGPS` call ends (section 7): the increment is
applied, or the recoverable `OptimizationFailure` is surfaced to the caller. -/
inductive AddGpsOutcome where
  | updated
  | optimizationFailure
deriving DecidableEq

/-- Modelled from the spec: the body of `GTSAM_CORE::addGPS`, which `gtsam_core.h`
only declares.  Spec, section 4.3: the call submits the increment to the external
solver, "retrieves the updated joint estimate, and refreshes Estimation State's pose,
velocity, bias, covariance, and counters from the solver's result", and "resets the
Motion Summary for the next window"; when the solver fails the driver "retain[s] the
previous snapshot" and surfaces a recoverable error.  The absolute-update counter
advances by one per completed increment (section 8) in 64-bit unsigned arithmetic. -/
def GTSAM_CORE.addGPS (ext : ExternalSolver G D) (s : GTSAM_CORE G D)
    (ptr : PoseMeasurement D) : GTSAM_CORE G D × AddGpsOutcome :=
  match ext.submitIncrement s ptr with
  | none => (s, AddGpsOutcome.optimizationFailure)
  | some u =>
    ({ s with
        isam2 := u.isam2
        result := u.result
        current_pose_global := u.pose
        current_pose_cov := u.pose_cov
        current_velocity_global := u.velocity
        current_bias := u.bias
        GPS_update_count :=
          ⟨(s.GPS_update_count.val + 1) % 18446744073709551616,
            Nat.mod_lt _ (by decide)⟩
        current_summarized_measurement :=
          ext.resetSummary s.current_summarized_measurement u.bias },
     AddGpsOutcome.updated)

/-- Modelled from the spec: the body of `GTSAM_CORE::getCurPose`, which `gtsam_core.h`
only declares: "returns the current pose snapshot; no side effects". -/
def GTSAM_CORE.getCurPose (s : GTSAM_CORE G D) : G.Pose3 :=
  s.current_pose_global

/-- Modelled from the spec: the body of `GTSAM_CORE::getResult`, which `gtsam_core.h`
only declares: "returns the complete current estimate of all variables tracked so far
(read-only snapshot)". -/
def GTSAM_CORE.getResult (s : GTSAM_CORE G D) : G.Values :=
  s.result

/-- Modelled from the spec: the fatal error of section 7, "ConfigurationError (fatal,
at initialize): non-positive noise/time parameters". -/
inductive ConfigurationError where
  | nonPositiveParameter
deriving DecidableEq

/-- Modelled from the spec: the body of `GTSAM_CORE::initialzie`, which `gtsam_core.h`
only declares.  Spec, section 4.3: "Malformed calibration (non-positive noise sigmas,
non-positive average_delta_t) is a fatal configuration error detected at initialize
time"; otherwise the call "resets Estimation State to time zero, zero velocity,
provided position, zero bias, and seeds the external solver", and (section 8) resets all
counters.  The check comes first, since the `RobotxCalibration` constructor itself
checks nothing; the calibration is then built by that constructor.  The parameter
`fresh` stands for the library work that builds the reset state and seeds the
solver. -/
def GTSAM_CORE.initialzie [LE D] [Zero D] [∀ a b : D, Decidable (a ≤ b)]
    (fresh : RobotxCalibration D → G.Vector3 → GTSAM_CORE G D)
    (calibration : Vector12 D) (position : G.Vector3) :
    Except ConfigurationError (GTSAM_CORE G D) :=
  if calibration 6 ≤ 0 ∨ calibration 7 ≤ 0 ∨ calibration 8 ≤ 0 ∨ calibration 9 ≤ 0 ∨
      calibration 10 ≤ 0 ∨ calibration 11 ≤ 0 then
    Except.error ConfigurationError.nonPositiveParameter
  else
    Except.ok
      { fresh (RobotxCalibration.RobotxCalibration calibration) position with
          robotx_calibration := RobotxCalibration.RobotxCalibration calibration
          GPS_update_count := ⟨0, by decide⟩
          included_imu_measurement_count := 0 }

/-- A sequence of `addGPS` calls, left to right: the state after the last call and the
outcome of every call. -/
def GTSAM_CORE.addGPSSequence (ext : ExternalSolver G D) :
    GTSAM_CORE G D → List (PoseMeasurement D) → GTSAM_CORE G D × List AddGpsOutcome
  | s, [] => (s, [])
  | s, ptr :: rest =>
    let step := GTSAM_CORE.addGPS ext s ptr
    let tl := GTSAM_CORE.addGPSSequence ext step.1 rest
    (tl.1, step.2 :: tl.2)

end Estimator

/-! ## Concrete inputs -/

section Examples

/-- A calibration vector whose `average_delta_t` (index 11) is negative. -/
def negativeDeltaCalibration : Vector12 ℚ :=
  fun i => if i = 11 then -1 else 2

/-- The pose with position `(k, k+1, k+2)` and the identity orientation. -/
def samplePose (k : Int) : Pose Int :=
  { position := { x := k, y := k + 1, z := k + 2 }
    orientation := { x := 0, y := 0, z := 0, w := 1 } }

/-- A link-states message with ten poses. -/
def tenLinks : LinkStates Int :=
  { pose := [samplePose 0, samplePose 10, samplePose 20, samplePose 30, samplePose 40,
             samplePose 50, samplePose 60, samplePose 70, samplePose 80, samplePose 90] }

/-- A link-states message with three poses. -/
def threeLinks : LinkStates Int :=
  { pose := [samplePose 0, samplePose 10, samplePose 20] }

/-- Every GTSAM type instantiated by the integers. -/
abbrev intTypes : GtsamTypes :=
  { PreintegratedImuMeasurements := Int
    ISAM2Params := Int
    noiseModel := Int
    ConstantBias := Int
    Pose3 := Int
    Matrix := Int
    Vector3 := Int
    ISAM2 := Int
    Values := Int
    NonlinearFactorGraph := Int }

/-- A stand-in solver: it rejects a sample without coefficients and otherwise returns an
estimate derived from the sample time. -/
def sampleSolver : ExternalSolver intTypes Int :=
  { submitIncrement := fun s ptr =>
      match ptr.data_ with
      | [] => none
      | _ :: _ =>
        some { isam2 := s.isam2 + 1, result := s.result + 1, pose := ptr.t_,
               pose_cov := 1, velocity := 0, bias := 0 }
    resetSummary := fun _ b => b }

/-- An estimator state with all members zero. -/
def sampleState : GTSAM_CORE intTypes Int :=
  { current_summarized_measurement := 0, t1 := 0, t2 := 0, dt := 0,
    included_imu_measurement_count := 0, g_ := 0,
    GPS_update_count := ⟨0, by decide⟩, gps_skip := 0,
    imu_params := 0, noise_model_gps := 0, current_bias := 0,
    current_pose_global := 0, current_pose_cov := 0, current_velocity_global := 0,
    robotx_calibration := RobotxCalibration.RobotxCalibration (fun _ => 1),
    isam2 := 0, result := 0, new_factors := 0, new_values := 0 }

/-- A position fix at time `t` with position `(1, 2, 3)`. -/
def sampleFix (t : Int) : PoseMeasurement Int :=
  { t_ := t, type_ := MeasurementType.POSE, data_ := [1, 2, 3], ori_ := [0, 0, 0, 1] }

/-- A position record without coefficients, which `sampleSolver` rejects. -/
def rejectedFix : PoseMeasurement Int :=
  { t_ := 5, type_ := MeasurementType.POSE, data_ := [], ori_ := [] }

/-- A calibration vector with every entry equal to 2. -/
def positiveCalibration : Vector12 ℚ :=
  fun _ => 2

/-- A stand-in for the library work at initialisation: all members zero except the
pose, which is set from the position. -/
def sampleFresh (cal : RobotxCalibration ℚ) (position : intTypes.Vector3) :
    GTSAM_CORE intTypes ℚ :=
  { current_summarized_measurement := 0, t1 := 0, t2 := 0, dt := 0,
    included_imu_measurement_count := 0, g_ := 0,
    GPS_update_count := ⟨0, by decide⟩, gps_skip := 0,
    imu_params := 0, noise_model_gps := 0, current_bias := 0,
    current_pose_global := position, current_pose_cov := 0,
    current_velocity_global := 0, robotx_calibration := cal,
    isam2 := 0, result := 0, new_factors := 0, new_values := 0 }

end Examples

/-! ## Theorems -/

section MeasurementTheorems

variable {D : Type}

/-- Claim C1: constructing `RobotxCalibration` from a 12-element vector `c` stores
`c[0]`, ..., `c[11]` in the twelve members in declaration order, so reading the
members back in that order gives `c` again. -/
theorem RobotxCalibration_fields_reproduce_vector (c : Vector12 D) :
    (RobotxCalibration.RobotxCalibration c).body_ptx = c 0 ∧
    (RobotxCalibration.RobotxCalibration c).body_pty = c 1 ∧
    (RobotxCalibration.RobotxCalibration c).body_ptz = c 2 ∧
    (RobotxCalibration.RobotxCalibration c).body_prx = c 3 ∧
    (RobotxCalibration.RobotxCalibration c).body_pry = c 4 ∧
    (RobotxCalibration.RobotxCalibration c).body_prz = c 5 ∧
    (RobotxCalibration.RobotxCalibration c).accelerometer_sigma = c 6 ∧
    (RobotxCalibration.RobotxCalibration c).gyroscope_sigma = c 7 ∧
    (RobotxCalibration.RobotxCalibration c).integration_sigma = c 8 ∧
    (RobotxCalibration.RobotxCalibration c).accelerometer_bias_sigma = c 9 ∧
    (RobotxCalibration.RobotxCalibration c).gyroscope_bias_sigma = c 10 ∧
    (RobotxCalibration.RobotxCalibration c).average_delta_t = c 11 ∧
    [(RobotxCalibration.RobotxCalibration c).body_ptx,
     (RobotxCalibration.RobotxCalibration c).body_pty,
     (RobotxCalibration.RobotxCalibration c).body_ptz,
     (RobotxCalibration.RobotxCalibration c).body_prx,
     (RobotxCalibration.RobotxCalibration c).body_pry,
     (RobotxCalibration.RobotxCalibration c).body_prz,
     (RobotxCalibration.RobotxCalibration c).accelerometer_sigma,
     (RobotxCalibration.RobotxCalibration c).gyroscope_sigma,
     (RobotxCalibration.RobotxCalibration c).integration_sigma,
     (RobotxCalibration.RobotxCalibration c).accelerometer_bias_sigma,
     (RobotxCalibration.RobotxCalibration c).gyroscope_bias_sigma,
     (RobotxCalibration.RobotxCalibration c).average_delta_t] = List.ofFn c := by
  refine ⟨rfl, rfl, rfl, rfl, rfl, rfl, rfl, rfl, rfl, rfl, rfl, rfl, ?_⟩
  simp only [RobotxCalibration.RobotxCalibration, List.ofFn_succ, List.ofFn_zero]
  rfl

/-- Claim C2: the `ImuMeasurement` built from an IMU message has tag `IMU`, the header
stamp in seconds as its time, the six data coefficients angular velocity (x, y, z)
then linear acceleration (x, y, z), and the orientation coefficients (x, y, z, w). -/
theorem ImuMeasurement_of_message (toSec : RosTime → D) (msg : Imu D) :
    (ImuMeasurement.ImuMeasurement toSec msg).type_ = MeasurementType.IMU ∧
    (ImuMeasurement.ImuMeasurement toSec msg).t_ = toSec msg.header.stamp ∧
    (ImuMeasurement.ImuMeasurement toSec msg).data_ =
      [msg.angular_velocity.x, msg.angular_velocity.y, msg.angular_velocity.z,
       msg.linear_acceleration.x, msg.linear_acceleration.y, msg.linear_acceleration.z] ∧
    (ImuMeasurement.ImuMeasurement toSec msg).data_.length = 6 ∧
    (ImuMeasurement.ImuMeasurement toSec msg).ori_ =
      [msg.orientation.x, msg.orientation.y, msg.orientation.z, msg.orientation.w] ∧
    (ImuMeasurement.ImuMeasurement toSec msg).ori_.length = 4 :=
  ⟨rfl, rfl, rfl, rfl, rfl, rfl⟩

/-- Claim C3: the `PoseMeasurement` built from a pose message has tag `POSE`, the header
stamp in seconds as its time, data (position x, y, z), orientation (x, y, z, w), and
`getData` returns exactly the position vector. -/
theorem PoseMeasurement_of_message (toSec : RosTime → D) (msg : PoseWithCovariance D) :
    (PoseMeasurement.PoseMeasurement toSec msg).type_ = MeasurementType.POSE ∧
    (PoseMeasurement.PoseMeasurement toSec msg).t_ = toSec msg.header.stamp ∧
    (PoseMeasurement.PoseMeasurement toSec msg).data_ =
      [msg.pose.position.x, msg.pose.position.y, msg.pose.position.z] ∧
    (PoseMeasurement.PoseMeasurement toSec msg).data_.length = 3 ∧
    (PoseMeasurement.PoseMeasurement toSec msg).ori_ =
      [msg.pose.orientation.x, msg.pose.orientation.y, msg.pose.orientation.z,
       msg.pose.orientation.w] ∧
    (PoseMeasurement.PoseMeasurement toSec msg).ori_.length = 4 ∧
    (PoseMeasurement.getData (PoseMeasurement.PoseMeasurement toSec msg)).1 =
      [msg.pose.position.x, msg.pose.position.y, msg.pose.position.z] :=
  ⟨rfl, rfl, rfl, rfl, rfl, rfl, rfl⟩

/-- Claim C10: the `GpsMeasurement` built from a NavSatFix message has tag `GPS`, the
header stamp in seconds as its time and data (latitude, longitude, altitude); a
default-constructed `Measurement` has time 0 and tag `EMPTY`. -/
theorem GpsMeasurement_of_message_and_default [Zero D] (toSec : RosTime → D)
    (msg : NavSatFix D) :
    (GpsMeasurement.GpsMeasurement toSec msg).type_ = MeasurementType.GPS ∧
    (GpsMeasurement.GpsMeasurement toSec msg).t_ = toSec msg.header.stamp ∧
    (GpsMeasurement.GpsMeasurement toSec msg).data_ =
      [msg.latitude, msg.longitude, msg.altitude] ∧
    (GpsMeasurement.GpsMeasurement toSec msg).data_.length = 3 ∧
    (Measurement.Measurement : Measurement D).t_ = 0 ∧
    (Measurement.Measurement : Measurement D).type_ = MeasurementType.EMPTY :=
  ⟨rfl, rfl, rfl, rfl, rfl, rfl⟩

theorem operator_lshift_on_failed_stream {D : Type} (os : OStream) (m : Measurement D)
    (hbad : os.good = false) : operator_lshift os m = (os, m) := by
  have hins : ∀ s : String, os.insertString s = os := by
    intro s
    unfold OStream.insertString
    simp [hbad]
  have hput : os.endl = os := by
    unfold OStream.endl OStream.put
    simp [hbad]
  unfold operator_lshift
  simp only [hins, hput]

end MeasurementTheorems

section RecordTheorems

variable {D : Type}

theorem Record.withMeasurement_toMeasurement (r : Record D) :
    r.withMeasurement r.toMeasurement = r := by
  cases r <;> rfl

theorem Record.call_eq_stored (a : Accessor) (r : Record D) :
    Record.call a r = (Record.stored a r).map (fun v => (v, r)) := by
  cases a <;> cases r <;> rfl

theorem Record.run_snd (calls : List Accessor) (r : Record D) :
    (Record.run calls r).2 = r := by
  induction calls with
  | nil => rfl
  | cons a rest ih =>
    simp only [Record.run, Record.call_eq_stored]
    cases Record.stored a r <;> simpa using ih

theorem Record.run_fst (calls : List Accessor) (r : Record D) :
    (Record.run calls r).1 = calls.map (fun a => Record.stored a r) := by
  induction calls with
  | nil => rfl
  | cons a rest ih =>
    simp only [Record.run, Record.call_eq_stored, List.map_cons]
    cases Record.stored a r <;> simpa using ih

/-- Claim C5: measurement records are immutable under the accessors.  For every record
and every sequence of calls to `getTime`, `getType`, `getData`, `getOri`, `getPos`, the
record after the calls is the record before them, and each call returns the member the
constructor stored (so equal calls return equal results). -/
theorem Record_accessors_leave_record_unchanged (calls : List Accessor) (r : Record D) :
    (Record.run calls r).2 = r ∧
    (Record.run calls r).1 = calls.map (fun a => Record.stored a r) ∧
    (∀ a : Accessor, Record.call a r = (Record.stored a r).map (fun v => (v, r))) :=
  ⟨Record.run_snd calls r, Record.run_fst calls r, fun a => Record.call_eq_stored a r⟩

end RecordTheorems

section LinkTheorems

variable {D : Type}

theorem sizeToInt_le (size : Nat) : sizeToInt size ≤ (size : Int) := by
  unfold sizeToInt
  split_ifs <;> omega

theorem sizeToInt_of_lt (size : Nat) (h : size < 2147483648) :
    sizeToInt size = (size : Int) := by
  unfold sizeToInt
  split_ifs <;> omega

/-- Claim C9: `GtLinkMeasurement` reads only the entry at index `n - 9`, where `n` is
the `int` holding the length of the pose list (equal to the length whenever the length
fits an `int`).  When `n ≥ 9` that index is within bounds and the record has tag `LINK`,
time `t`, position and orientation of `pose[n-9]`; when `n < 9` the index `n - 9` is no
valid index of the list and no record is built. -/
theorem GtLinkMeasurement_reads_entry_n_minus_9 (msg : LinkStates D) (t : D) :
    (msg.pose.length < 2147483648 →
      sizeToInt msg.pose.length = (msg.pose.length : Int)) ∧
    (9 ≤ sizeToInt msg.pose.length →
      ∃ (i : Nat) (p : Pose D),
        (i : Int) = sizeToInt msg.pose.length - 9 ∧ i < msg.pose.length ∧
        msg.pose[i]? = some p ∧
        GtLinkMeasurement.GtLinkMeasurement msg t =
          some { t_ := t
                 type_ := MeasurementType.LINK
                 pos_ := [p.position.x, p.position.y, p.position.z]
                 ori_ := [p.orientation.x, p.orientation.y, p.orientation.z,
                          p.orientation.w] }) ∧
    (sizeToInt msg.pose.length < 9 →
      (¬ ∃ i : Nat, (i : Int) = sizeToInt msg.pose.length - 9 ∧ i < msg.pose.length) ∧
      GtLinkMeasurement.GtLinkMeasurement msg t = none) := by
  refine ⟨sizeToInt_of_lt _, fun h9 => ?_, fun h9 => ?_⟩
  · have hle := sizeToInt_le msg.pose.length
    have hnat : ((sizeToInt msg.pose.length - 9).toNat : Int) =
        sizeToInt msg.pose.length - 9 := Int.toNat_of_nonneg (by omega)
    have hlt : (sizeToInt msg.pose.length - 9).toNat < msg.pose.length := by omega
    refine ⟨(sizeToInt msg.pose.length - 9).toNat, msg.pose[(sizeToInt msg.pose.length - 9).toNat],
      hnat, hlt, List.getElem?_eq_getElem hlt, ?_⟩
    have hnn : (0 : Int) ≤ sizeToInt msg.pose.length - 9 := by omega
    have hat : vectorAt msg.pose (sizeToInt msg.pose.length - 9) =
        some msg.pose[(sizeToInt msg.pose.length - 9).toNat] := by
      unfold vectorAt
      rw [if_pos hnn, List.getElem?_eq_getElem hlt]
    unfold GtLinkMeasurement.GtLinkMeasurement
    simp only [hat]
  · refine ⟨fun ⟨i, hi, _⟩ => by omega, ?_⟩
    have hneg : ¬ (0 : Int) ≤ sizeToInt msg.pose.length - 9 := by omega
    have hat : vectorAt msg.pose (sizeToInt msg.pose.length - 9) = none := by
      unfold vectorAt
      rw [if_neg hneg]
    unfold GtLinkMeasurement.GtLinkMeasurement
    simp only [hat]

/-- Witness for C9: with ten poses the record is built from `pose[1]`; with three poses
no record is built. -/
theorem GtLinkMeasurement_reads_entry_n_minus_9_witness :
    (tenLinks.pose.length < 2147483648 ∧ 9 ≤ sizeToInt tenLinks.pose.length ∧
      ∃ (i : Nat) (p : Pose Int),
        (i : Int) = sizeToInt tenLinks.pose.length - 9 ∧ i < tenLinks.pose.length ∧
        tenLinks.pose[i]? = some p ∧
        GtLinkMeasurement.GtLinkMeasurement tenLinks 7 =
          some { t_ := 7
                 type_ := MeasurementType.LINK
                 pos_ := [p.position.x, p.position.y, p.position.z]
                 ori_ := [p.orientation.x, p.orientation.y, p.orientation.z,
                          p.orientation.w] }) ∧
    (sizeToInt threeLinks.pose.length < 9 ∧
      GtLinkMeasurement.GtLinkMeasurement threeLinks 7 = none) :=
  ⟨⟨by decide, by decide,
     (GtLinkMeasurement_reads_entry_n_minus_9 tenLinks 7).2.1 (by decide)⟩,
   ⟨by decide,
     ((GtLinkMeasurement_reads_entry_n_minus_9 threeLinks 7).2.2 (by decide)).2⟩⟩

end LinkTheorems

section CalibrationTheorems

variable {G : GtsamTypes} {D : Type}

theorem GTSAM_CORE.initialzie_accepts_positive [LE D] [Zero D]
    [∀ a b : D, Decidable (a ≤ b)]
    (fresh : RobotxCalibration D → G.Vector3 → GTSAM_CORE G D)
    (c : Vector12 D) (position : G.Vector3)
    (h : ¬ (c 6 ≤ 0 ∨ c 7 ≤ 0 ∨ c 8 ≤ 0 ∨ c 9 ≤ 0 ∨ c 10 ≤ 0 ∨ c 11 ≤ 0)) :
    ∃ s : GTSAM_CORE G D,
      GTSAM_CORE.initialzie fresh c position = Except.ok s ∧
      s.robotx_calibration = RobotxCalibration.RobotxCalibration c ∧
      s.GPS_update_count.val = 0 := by
  unfold GTSAM_CORE.initialzie
  rw [if_neg h]
  exact ⟨_, rfl, rfl, rfl⟩

theorem GTSAM_CORE.initialzie_accepts_positiveCalibration :
    ∃ s : GTSAM_CORE intTypes ℚ,
      GTSAM_CORE.initialzie sampleFresh positiveCalibration 7 = Except.ok s ∧
      s.robotx_calibration = RobotxCalibration.RobotxCalibration positiveCalibration ∧
      s.GPS_update_count.val = 0 :=
  GTSAM_CORE.initialzie_accepts_positive sampleFresh positiveCalibration 7
    (by simp [positiveCalibration])

/-- Claim C4: initialisation fails with the fatal configuration error whenever the
12-element calibration vector has a non-positive noise sigma (indices 6 to 10) or a
non-positive `average_delta_t` (index 11); no estimator state, hence no calibration, is
produced from such a vector. -/
theorem GTSAM_CORE.initialzie_rejects_non_positive_noise [LE D] [Zero D]
    [∀ a b : D, Decidable (a ≤ b)]
    (fresh : RobotxCalibration D → G.Vector3 → GTSAM_CORE G D)
    (c : Vector12 D) (position : G.Vector3) (h : nonPositiveNoise c) :
    GTSAM_CORE.initialzie fresh c position =
      Except.error ConfigurationError.nonPositiveParameter ∧
    ∀ s : GTSAM_CORE G D, GTSAM_CORE.initialzie fresh c position ≠ Except.ok s := by
  have hbad : c 6 ≤ 0 ∨ c 7 ≤ 0 ∨ c 8 ≤ 0 ∨ c 9 ≤ 0 ∨ c 10 ≤ 0 ∨ c 11 ≤ 0 := by
    obtain ⟨i, hi, hle⟩ := h
    fin_cases i <;> simp at hi <;> simp_all
  have herr : GTSAM_CORE.initialzie fresh c position =
      Except.error ConfigurationError.nonPositiveParameter := by
    unfold GTSAM_CORE.initialzie
    rw [if_pos hbad]
  refine ⟨herr, fun s hs => ?_⟩
  rw [herr] at hs
  cases hs

/-- Witness for C4: the vector `negativeDeltaCalibration`, with `average_delta_t = -1`,
is rejected. -/
theorem GTSAM_CORE.initialzie_rejects_non_positive_noise_witness :
    nonPositiveNoise negativeDeltaCalibration ∧
    GTSAM_CORE.initialzie sampleFresh negativeDeltaCalibration 7 =
      Except.error ConfigurationError.nonPositiveParameter :=
  ⟨⟨11, by decide, by simp [negativeDeltaCalibration]⟩,
   (GTSAM_CORE.initialzie_rejects_non_positive_noise sampleFresh negativeDeltaCalibration 7
      ⟨11, by decide, by simp [negativeDeltaCalibration]⟩).1⟩

end CalibrationTheorems

section EstimatorTheorems

variable {G : GtsamTypes} {D : Type}

theorem GTSAM_CORE.addGPS_updated_count (ext : ExternalSolver G D) (s : GTSAM_CORE G D)
    (ptr : PoseMeasurement D)
    (h : (GTSAM_CORE.addGPS ext s ptr).2 = AddGpsOutcome.updated) :
    (GTSAM_CORE.addGPS ext s ptr).1.GPS_update_count.val =
      (s.GPS_update_count.val + 1) % 18446744073709551616 := by
  unfold GTSAM_CORE.addGPS at h ⊢
  cases hsub : ext.submitIncrement s ptr with
  | none => simp [hsub] at h
  | some u => simp

theorem GTSAM_CORE.addGPS_failure_state (ext : ExternalSolver G D) (s : GTSAM_CORE G D)
    (ptr : PoseMeasurement D)
    (h : (GTSAM_CORE.addGPS ext s ptr).2 = AddGpsOutcome.optimizationFailure) :
    (GTSAM_CORE.addGPS ext s ptr).1 = s := by
  unfold GTSAM_CORE.addGPS at h ⊢
  cases hsub : ext.submitIncrement s ptr with
  | none => simp
  | some u => simp [hsub] at h

theorem GTSAM_CORE.addGPSSequence_count (ext : ExternalSolver G D)
    (samples : List (PoseMeasurement D)) :
    ∀ s : GTSAM_CORE G D,
      (∀ o ∈ (GTSAM_CORE.addGPSSequence ext s samples).2, o = AddGpsOutcome.updated) →
      (GTSAM_CORE.addGPSSequence ext s samples).1.GPS_update_count.val =
        (s.GPS_update_count.val + samples.length) % 18446744073709551616 := by
  induction samples with
  | nil =>
    intro s _
    have hlt := s.GPS_update_count.isLt
    simp only [GTSAM_CORE.addGPSSequence, List.length_nil, Nat.add_zero]
    omega
  | cons ptr rest ih =>
    intro s h
    simp only [GTSAM_CORE.addGPSSequence, List.mem_cons, forall_eq_or_imp] at h
    have hstep := GTSAM_CORE.addGPS_updated_count ext s ptr h.1
    have hrest := ih (GTSAM_CORE.addGPS ext s ptr).1 h.2
    simp only [GTSAM_CORE.addGPSSequence, List.length_cons]
    rw [hrest, hstep]
    omega

/-- Claim C6: for every estimator state and every sequence of N `addGPS` calls whose
increments are all valid, the absolute-update counter `GPS_update_count` afterwards is
its value before plus N, the sum being taken in the counter's 64-bit unsigned
arithmetic; it is the exact sum whenever that sum is below `2^64`. -/
theorem GTSAM_CORE.addGPS_sequence_advances_counter (ext : ExternalSolver G D)
    (s : GTSAM_CORE G D) (samples : List (PoseMeasurement D))
    (hvalid : ∀ o ∈ (GTSAM_CORE.addGPSSequence ext s samples).2,
      o = AddGpsOutcome.updated) :
    (GTSAM_CORE.addGPSSequence ext s samples).1.GPS_update_count.val =
      (s.GPS_update_count.val + samples.length) % 18446744073709551616 ∧
    (s.GPS_update_count.val + samples.length < 18446744073709551616 →
      (GTSAM_CORE.addGPSSequence ext s samples).1.GPS_update_count.val =
        s.GPS_update_count.val + samples.length) := by
  have h := GTSAM_CORE.addGPSSequence_count ext samples s hvalid
  refine ⟨h, fun hlt => ?_⟩
  rw [h]
  exact Nat.mod_eq_of_lt hlt

/-- Witness for C6: two accepted fixes from the zero state take the counter from 0 to 2. -/
theorem GTSAM_CORE.addGPS_sequence_advances_counter_witness :
    (∀ o ∈ (GTSAM_CORE.addGPSSequence sampleSolver sampleState
        [sampleFix 1, sampleFix 2]).2, o = AddGpsOutcome.updated) ∧
    (GTSAM_CORE.addGPSSequence sampleSolver sampleState
        [sampleFix 1, sampleFix 2]).1.GPS_update_count.val = 0 + 2 :=
  ⟨by decide,
   (GTSAM_CORE.addGPS_sequence_advances_counter sampleSolver sampleState
      [sampleFix 1, sampleFix 2] (by decide)).2 (by decide)⟩

/-- Claim C7: if an `addGPS` increment fails (the external solver produces no valid
update), the call reports the failure and `getCurPose` and `getResult` afterwards
return what they returned before the call; the whole estimation state is unchanged. -/
theorem GTSAM_CORE.addGPS_failure_keeps_estimate (ext : ExternalSolver G D)
    (s : GTSAM_CORE G D) (ptr : PoseMeasurement D)
    (hfail : ext.submitIncrement s ptr = none) :
    (GTSAM_CORE.addGPS ext s ptr).2 = AddGpsOutcome.optimizationFailure ∧
    GTSAM_CORE.getCurPose (GTSAM_CORE.addGPS ext s ptr).1 = GTSAM_CORE.getCurPose s ∧
    GTSAM_CORE.getResult (GTSAM_CORE.addGPS ext s ptr).1 = GTSAM_CORE.getResult s ∧
    (GTSAM_CORE.addGPS ext s ptr).1 = s := by
  have hout : (GTSAM_CORE.addGPS ext s ptr).2 = AddGpsOutcome.optimizationFailure := by
    simp [GTSAM_CORE.addGPS, hfail]
  have hstate := GTSAM_CORE.addGPS_failure_state ext s ptr hout
  exact ⟨hout, by rw [hstate], by rw [hstate], hstate⟩

/-- Witness for C7: the rejected fix leaves the state reached after one accepted fix as
it was. -/
theorem GTSAM_CORE.addGPS_failure_keeps_estimate_witness :
    sampleSolver.submitIncrement (GTSAM_CORE.addGPS sampleSolver sampleState
        (sampleFix 4)).1 rejectedFix = none ∧
    GTSAM_CORE.getCurPose (GTSAM_CORE.addGPS sampleSolver
        (GTSAM_CORE.addGPS sampleSolver sampleState (sampleFix 4)).1 rejectedFix).1 =
      GTSAM_CORE.getCurPose (GTSAM_CORE.addGPS sampleSolver sampleState (sampleFix 4)).1 :=
  ⟨rfl,
   (GTSAM_CORE.addGPS_failure_keeps_estimate sampleSolver
      (GTSAM_CORE.addGPS sampleSolver sampleState (sampleFix 4)).1 rejectedFix rfl).2.1⟩

end EstimatorTheorems

end GtsamRos
